import Mathlib

/-!
Shallow embedding of `bisecur2mqtt.py` (an MQTT-to-Bisecur-gateway bridge):
the command dispatcher, door status reader, door action executor, the
position tracking loop and the error classifier, together with theorems
checking the specification's claims about them.

Machine conventions: gateway responses are modelled as optional structured
records mirroring the Python duck-typed attribute checks; Python string
membership (`a in b`) is substring containment; loops are embedded as
structurally recursive functions whose fuel mirrors the source's own loop
bound where one exists (`MAX_RETRIES`, the 15-second wait counter), or is an
explicit iteration budget for the unbounded tracking loop.
-/

namespace B2M

/-- `MAX_RETRIES = 10` (line 51): nominal retry ceiling of the status reader. -/
def MAX_RETRIES : Nat := 10

/-- Substring scan: does `n` occur contiguously in the second list? -/
def substr_go (n : List Char) : List Char → Bool
  | [] => n.isEmpty
  | c :: t => n.isPrefixOf (c :: t) || substr_go n t

/-- Python `needle in haystack` on strings: substring containment. -/
def pyInSubstr (needle haystack : String) : Bool :=
  substr_go needle.data haystack.data

/-- Python `s.lower()`: lower-case character by character. -/
def py_lower (s : String) : String :=
  String.mk (s.data.map Char.toLower)

/-- Python `s.strip()`: drop leading and trailing whitespace. -/
def py_strip (s : String) : String :=
  String.mk (((s.data.dropWhile Char.isWhitespace).reverse.dropWhile Char.isWhitespace).reverse)

/-- Split a character list at every occurrence of `sep` (Python
`str.split(sep)` semantics: n separators yield n+1 pieces). -/
def split_chars (sep : Char) : List Char → List (List Char)
  | [] => [[]]
  | c :: t =>
    match split_chars sep t with
    | h :: r => if c == sep then [] :: h :: r else (c :: h) :: r
    | [] => if c == sep then [[], []] else [[c]]

/-- Python `cmd.split("_")` of line 335. -/
def py_split_underscore (s : String) : List String :=
  (split_chars '_' s.data).map String.mk

/-- Replace every non-overlapping occurrence of `old` (nonempty at both
call sites), scanning left to right; `skip` consumes the remainder of a
match already emitted. -/
def replace_go (old new : List Char) (skip : Nat) : List Char → List Char
  | [] => []
  | c :: t =>
    match skip with
    | s + 1 => replace_go old new s t
    | 0 =>
      if !old.isEmpty && old.isPrefixOf (c :: t) then
        new ++ replace_go old new (old.length - 1) t
      else c :: replace_go old new 0 t

/-- Python `s.replace(old, new)`. -/
def py_replace (s old new : String) : String :=
  String.mk (replace_go old.data new.data 0 s.data)

/-- An embedded gateway error code, as exposed at `resp.payload.command.error_code`
(fields `.value` and `.name`). -/
structure ErrorCode where
  value : Int
  name : String
deriving DecidableEq, Repr

/-- The `command` member of a gateway response payload.  The Python code
inspects it duck-typed: `hasattr(..., "percent_open")` and
`hasattr(..., "error_code")` become `Option` fields. -/
structure McpCommand where
  percent_open : Option Int := none
  error_code : Option ErrorCode := none
deriving DecidableEq, Repr

/-- The `payload` member of a gateway response. -/
structure McpPayload where
  command : McpCommand
  command_id : Int := 0
deriving DecidableEq, Repr

/-- A gateway response object.  `payload` is optional because the code tests
`resp.payload` for truthiness; `str_repr` models Python `str(resp)`. -/
structure Response where
  payload : Option McpPayload
  str_repr : String := ""
deriving DecidableEq, Repr

/-- Result of the success branch of `get_door_status` (lines 169-188):
the returned triple plus what was published and whether the
missing-percent-open warning was logged. -/
structure SuccessRead where
  resp : Option Response
  position : Int
  state : Option String
  warned : Bool
  pubPos : Int
  pubState : Option String
deriving DecidableEq, Repr

/-- The `else` arm of lines 181-183: `position = -1`, a warning is logged,
position -1 is still published, no state is published. -/
def noPercentOut (resp : Option Response) : SuccessRead :=
  { resp := resp, position := -1, state := none, warned := true,
    pubPos := -1, pubState := none }

/-- Lines 169-188 of `get_door_status`: the body run when `CLI.get_transition`
returned without raising.  `if resp and resp.payload and
hasattr(resp.payload.command, "percent_open")` maps position 0 to `closed`,
100 to `open`, and leaves `state = None` mid-travel; position is always
published, state only when set (`if state:`). -/
def read_success (resp : Option Response) : SuccessRead :=
  match resp with
  | some r =>
    match r.payload with
    | some pl =>
      match pl.command.percent_open with
      | some p =>
        let st : Option String :=
          if p = 0 then some "closed" else if p = 100 then some "open" else none
        { resp := resp, position := p, state := st, warned := false,
          pubPos := p, pubState := st }
      | none => noPercentOut resp
    | none => noPercentOut resp
  | none => noPercentOut resp

/-- `check_broken_pipe` (lines 155-161): true iff the lowered error text
contains "errno 32" or "broken pipe"; the caller treats true as
"reinitialize the gateway and abort". -/
def check_broken_pipe (err_msg : String) : Bool :=
  pyInSubstr "errno 32" err_msg || pyInSubstr "broken pipe" err_msg

/-- One attempt of the status-read loop: either `CLI.get_transition`
returned (possibly `None`), or it raised an exception carrying a message,
with `CLI.last_error` truthy or not at that moment. -/
inductive Attempt where
  | success (resp : Option Response)
  | failure (errMsg : String) (lastError : Bool)
deriving DecidableEq, Repr

/-- Overall result of `get_door_status` (lines 164-201): the returned triple,
what was published on the success path, the missing-field warning, the
number of 0.8-second sleep-and-retry cycles performed, and whether a
broken-pipe fault triggered `init_bisecur_gw(True)`. -/
structure StatusResult where
  resp : Option Response
  position : Int
  state : Option String
  published : Option (Int × Option String)
  warned : Bool
  retries : Nat
  reinit : Bool
deriving DecidableEq, Repr

/-- The `return None, -1, None` exit of line 201 (no publish, no warning). -/
def exit_status (retries : Nat) (reinit : Bool) : StatusResult :=
  { resp := none, position := -1, state := none, published := none,
    warned := false, retries := retries, reinit := reinit }

/-- The `while retries < MAX_RETRIES` loop of `get_door_status`
(lines 167-200).  `fuel = MAX_RETRIES - retries` keeps the recursion
structural; every continuing iteration increments `retries` exactly once,
so the invariant `retries + fuel = MAX_RETRIES` mirrors the guard.
On an exception: broken pipe → reinit and break; else if `CLI.last_error`
and `retries < 5` → sleep 0.8 s and retry; else break. -/
def get_door_status_go (attempts : Nat → Attempt) : Nat → Nat → StatusResult
  | retries, 0 => exit_status retries false
  | retries, fuel + 1 =>
    match attempts retries with
    | .success resp =>
      let s := read_success resp
      { resp := s.resp, position := s.position, state := s.state,
        published := some (s.pubPos, s.pubState), warned := s.warned,
        retries := retries, reinit := false }
    | .failure msg le =>
      if check_broken_pipe (py_lower msg) then exit_status retries true
      else if le = true ∧ retries < 5 then
        get_door_status_go attempts (retries + 1) fuel
      else exit_status retries false

/-- `get_door_status(set_door)`, parametrized by the stream of gateway
attempt outcomes (the k-th attempt is `attempts k`). -/
def get_door_status (attempts : Nat → Attempt) : StatusResult :=
  get_door_status_go attempts 0 MAX_RETRIES

/-- A response whose `payload.command.percent_open` is present with value `p`. -/
def mkPosResp (p : Int) : Response :=
  { payload := some { command := { percent_open := some p } } }

/-- A response whose `payload.command` lacks `percent_open`. -/
def noPosResp : Response :=
  { payload := some { command := {} } }

/-- The `code` field of a published error record: an integer, or the
literal "Unknown" used when the response carries no error fields. -/
inductive ErrCodeVal where
  | num (v : Int)
  | unknownCode
deriving DecidableEq, Repr

/-- The normalized error record `{"error_code": ..., "error": ...}`. -/
structure ErrorObj where
  error_code : ErrCodeVal
  error : String
deriving DecidableEq, Repr

/-- What one call of `check_mcp_error` does: the record published to the
error subtopic (`none` = the empty-string success marker was published)
and the function's return value. -/
structure McpCheckOut where
  publishedToErrorTopic : Option ErrorObj
  retVal : Option ErrorObj
deriving DecidableEq, Repr

/-- Python `hasattr(resp, name)` where `name` contains a dot, as in
`hasattr(resp, "resp.payload")` on lines 315-316: attribute lookup uses the
whole string as a single attribute name, and the MCP response objects have
no attribute whose name contains a dot, so this is always false. -/
def hasattr_dotted (_r : Response) (_name : String) : Bool := false

/-- The guard of the `elif` on lines 315-317:
`resp and hasattr(resp, "resp.payload") and hasattr(resp, "resp.payload.command_id")
and resp.payload.command_id == 1 and hasattr(resp.payload.command, "error_code")`. -/
def dead_elif_guard (resp : Option Response) : Bool :=
  match resp with
  | some r =>
    hasattr_dotted r "resp.payload" && hasattr_dotted r "resp.payload.command_id" &&
      ((r.payload.map (fun pl => (pl.command_id == 1) && pl.command.error_code.isSome)).getD false)
  | none => false

/-- Lines 307-312: the record built in the first branch of `check_mcp_error`:
the response's embedded `{value, name}` when reachable, else code
"Unknown" with `str(resp)` (or "Unknown error" for a `None` response). -/
def error_obj_of (resp : Option Response) : ErrorObj :=
  match resp with
  | some r =>
    match r.payload with
    | some pl =>
      match pl.command.error_code with
      | some ec => { error_code := .num ec.value, error := ec.name }
      | none => { error_code := .unknownCode, error := r.str_repr }
    | none => { error_code := .unknownCode, error := r.str_repr }
  | none => { error_code := .unknownCode, error := "Unknown error" }

/-- `check_mcp_error(resp)` (lines 304-329), parametrized by the truthiness
of `CLI.last_error`.  Branch 1 publishes an error record but falls through
with an implicit `return None`; branch 2 (the only branch that would return
a truthy record) is guarded by the dotted `hasattr` tests; the final branch
publishes the empty marker and returns `None`. -/
def check_mcp_error (lastError : Bool) (resp : Option Response) : McpCheckOut :=
  if lastError then
    { publishedToErrorTopic := some (error_obj_of resp), retVal := none }
  else if dead_elif_guard resp then
    match resp with
    | some r =>
      match r.payload with
      | some pl =>
        match pl.command.error_code with
        | some ec =>
          { publishedToErrorTopic := some { error_code := .num ec.value, error := ec.name },
            retVal := some { error_code := .num ec.value, error := ec.name } }
        | none => { publishedToErrorTopic := none, retVal := none }
      | none => { publishedToErrorTopic := none, retVal := none }
    | none => { publishedToErrorTopic := none, retVal := none }
  else { publishedToErrorTopic := none, retVal := none }

/-- Python `str(...)` applied to the global `LAST_DOOR_STATE`
(`None` prints as "None"). -/
def pyStrOpt : Option String → String
  | none => "None"
  | some s => s

/-- The protocol request built on line 256: `MCPSetState.construct(port)`.
Its only argument is the port. -/
structure MCPSetStateReq where
  port : Int
deriving DecidableEq, Repr

/-- Outcome of `do_door_action` as far as the gateway is concerned:
a refusal with a warning message (no gateway call), a submitted
`MCPSetState` request (recording which action name reached the call site),
or the undefined-port fall-through of lines 286-288 (no gateway call). -/
inductive ActionOutcome where
  | refused (msg : String)
  | call (effectiveAction : String) (req : MCPSetStateReq)
  | noPort
deriving DecidableEq, Repr

/-- The warning of lines 249-250. -/
def stop_warning_msg (lastState : Option String) : String :=
  "Ignoring \x27stop\x27 command as current door movement direction unknown (LAST_DOOR_STATE is \x27"
    ++ pyStrOpt lastState ++ "\x27)"

/-- Lines 253-257: the membership test `action in "impulse up down partial light stop"`
(Python substring containment) and, when it passes, the construction and
submission of the set-state request for the door's port. -/
def mcp_dispatch (action : String) (port : Int) : ActionOutcome :=
  if pyInSubstr action "impulse up down partial light stop" then
    .call action (MCPSetStateReq.mk port)
  else .noPort

/-- `do_door_action(action, set_door)` (lines 240-288) up to the gateway
call: the contextual translation of `stop` by `LAST_DOOR_STATE`
(lines 243-251), then the request construction. -/
def do_door_action_model (action : String) (lastState : Option String) (port : Int) : ActionOutcome :=
  if action = "stop" then
    if lastState = some "opening" then mcp_dispatch "down" port
    else if lastState = some "closing" then mcp_dispatch "up" port
    else .refused (stop_warning_msg lastState)
  else mcp_dispatch action port

/-- The gateway request submitted by an action outcome, if any. -/
def requestOf : ActionOutcome → Option MCPSetStateReq
  | .call _ req => some req
  | _ => none

/-- Where `do_command` (lines 72-104) routes a command token. -/
inductive Route where
  | statusRead
  | doorAction (sanitised : String)
  | ports
  | version
  | login
  | restart
  | unrecognised (resp : String)
deriving DecidableEq, Repr

/-- The branch cascade of `do_command` (lines 77-97): `cmd.lower().strip()`,
then Python substring membership tests against the literal branch strings,
with `open`→`up` and `close`→`down` rewriting before the door-action call. -/
def do_command_route (cmdRaw : String) : Route :=
  let cmd := py_strip (py_lower cmdRaw)
  if pyInSubstr cmd "get_door_state get_door_position" then .statusRead
  else if pyInSubstr cmd "up down open close stop impulse partial light" then
    .doorAction (py_replace (py_replace cmd "open" "up") "close" "down")
  else if cmd = "get_ports" then .ports
  else if pyInSubstr cmd "get_version get_gw_version" then .version
  else if cmd = "login" then .login
  else if pyInSubstr cmd "sys_restart init_bisecur_gw" then .restart
  else .unrecognised ("Command \x27" ++ cmd ++ " is not recognised")

/-- The fixed command vocabulary listed by the specification. -/
def commandVocab : List String :=
  ["up", "down", "open", "close", "stop", "impulse", "partial", "light",
   "get_door_state", "get_door_position", "get_ports", "get_version",
   "get_gw_version", "login", "sys_restart", "init_bisecur_gw"]

/-- The regex `^[a-zA-Z]+_\d+$` of line 336: the string splits as a
nonempty run of ASCII letters, one underscore, and a nonempty run of
digits.  All split points are checked. -/
def cmdFormatMatch (s : String) : Bool :=
  (List.range s.data.length).any (fun i =>
    let a := s.data.take i
    match s.data.drop i with
    | c :: b =>
      c == '_' && !a.isEmpty && !b.isEmpty &&
        a.all (fun ch => ch.isAlpha) && b.all (fun ch => ch.isDigit)
    | [] => false)

/-- What `on_message` (lines 332-340) does with a payload. -/
inductive MsgResult where
  | dispatched (action doorId : String)
  | invalidFormat
deriving DecidableEq, Repr

/-- `on_message`: split the payload on `_`; if the regex matches, dispatch
`do_command(parts[0], parts[1])`, else log the invalid-format warning. -/
def on_message_route (cmd : String) : MsgResult :=
  if cmdFormatMatch cmd then
    .dispatched ((py_split_underscore cmd).getD 0 "") ((py_split_underscore cmd).getD 1 "")
  else .invalidFormat

/-- The loop guard of lines 214-215:
`not DO_EXIT_THREAD and ((state != "open" and last_action == "up open") or
(state != "closed" and last_action in "down close") or current_pos != last_pos)`.
Note the first disjunct compares `last_action` for *equality* with the
literal two-word string "up open". -/
def loop_cond (cancelled : Bool) (lastAction : String) (st : Option String)
    (cur : Int) (lastP : Option Int) : Bool :=
  !cancelled &&
    ((!(st == some "open") && (lastAction == "up open"))
      || (!(st == some "closed") && pyInSubstr lastAction "down close")
      || !(lastP == some cur))

/-- Lines 223-232: state derived from the position comparison. -/
def derive_state (cur prev : Int) : String :=
  if cur < prev then "closing"
  else if cur > prev then "opening"
  else if cur = 100 then "open"
  else if cur = 0 then "closed"
  else "unknown"

/-- One loop-body step of `track_realtime_door_position` after the guard
(lines 217-235), given the previous `current_pos` snapshot and the status
read result. -/
inductive StepRes where
  | exitErr (finalState : Option String)
  | updated (newCur : Int) (newState : String)
  | skipped (newCur : Int) (readState : Option String)
deriving DecidableEq, Repr

/-- Lines 218-235: unpack the status triple; `resp is None` sets
`DO_EXIT_THREAD` and breaks; otherwise `if not check_mcp_error(resp):`
re-derives the state from the position comparison, stores it in
`LAST_DOOR_STATE` and publishes position and state. -/
def track_step (lastErr : Bool) (prevCur : Int) (r : StatusResult) : StepRes :=
  match r.resp with
  | none => .exitErr r.state
  | some resp =>
    if (check_mcp_error lastErr (some resp)).retVal = none then
      .updated r.position (derive_state r.position prevCur)
    else .skipped r.position r.state

/-- How the tracking loop exited. -/
inductive ExitKind where
  | settled
  | cancelled
  | errorExit
  | fuelOut
deriving DecidableEq, Repr

/-- Result of a tracking-loop run: the final `LAST_DOOR_STATE` assignment
of line 236, the number of loop iterations, the exit cause, and the
(position, state) pairs published from inside the loop. -/
structure TrackResult where
  finalState : Option String
  iterations : Nat
  exit : ExitKind
  pubs : List (Int × String)
deriving DecidableEq, Repr

/-- The `while` loop of `track_realtime_door_position` (lines 214-236),
with an explicit iteration budget `fuel` (the source loop is unbounded).
`reads k` is the k-th `get_door_status` result, `cancelAt k` the value of
`DO_EXIT_THREAD` at the k-th guard check, `lastErrAt k` the truthiness of
`CLI.last_error` inside the k-th iteration. -/
def track_loop (reads : Nat → StatusResult) (cancelAt lastErrAt : Nat → Bool)
    (lastAction : String) :
    Nat → Int → Option Int → Option String → Nat → List (Int × String) → TrackResult
  | 0, _cur, _lastP, st, k, pubs =>
    { finalState := st, iterations := k, exit := .fuelOut, pubs := pubs }
  | fuel + 1, cur, lastP, st, k, pubs =>
    if loop_cond (cancelAt k) lastAction st cur lastP then
      match track_step (lastErrAt k) cur (reads k) with
      | .exitErr finalSt =>
        { finalState := finalSt, iterations := k + 1, exit := .errorExit, pubs := pubs }
      | .updated newCur newSt =>
        track_loop reads cancelAt lastErrAt lastAction fuel newCur (some cur)
          (some newSt) (k + 1) (pubs ++ [(newCur, newSt)])
      | .skipped newCur readSt =>
        track_loop reads cancelAt lastErrAt lastAction fuel newCur (some cur)
          readSt (k + 1) pubs
    else
      { finalState := st, iterations := k,
        exit := if cancelAt k then .cancelled else .settled, pubs := pubs }

/-- `track_realtime_door_position(current_pos, last_action, set_door)`
(lines 204-237): seeded with the captured position, `last_pos = None` and
`state = ""`. -/
def track_realtime_door_position (reads : Nat → StatusResult)
    (cancelAt lastErrAt : Nat → Bool) (lastAction : String) (seedPos : Int)
    (fuel : Nat) : TrackResult :=
  track_loop reads cancelAt lastErrAt lastAction fuel seedPos none (some "") 0 []

/-- The wait loop of lines 266-271:
`counter = 0; while POS_TRACKING_THREAD.is_alive() and counter < 15:
time.sleep(.5); counter += 0.5`.  The counter is kept in half-second
units (`c` half-steps ↔ `counter = c / 2`), so the guard `counter < 15`
is `c < 30`; `fuel = 30 - c` keeps the recursion structural.  The result
is the number of 0.5-second polls performed. -/
def supersede_wait_go (alive : Nat → Bool) : Nat → Nat → Nat
  | c, 0 => c
  | c, fuel + 1 => if alive c then supersede_wait_go alive (c + 1) fuel else c

/-- Number of 0.5-second polls the dispatcher performs while the prior
tracking thread stays alive (`alive k` = `is_alive()` at the k-th check). -/
def supersede_wait (alive : Nat → Bool) : Nat :=
  supersede_wait_go alive 0 30

/-- The supersede sequence of lines 262-278: set `DO_EXIT_THREAD = True`,
run the bounded wait, then start the new tracking thread with
`args = (current_pos, action, set_door)`. -/
structure SupersedeTrace where
  cancelSignalled : Bool
  polls : Nat
  seedPos : Int
  seedAction : String
deriving DecidableEq, Repr

/-- `do_door_action`'s supersede of an existing live tracking session. -/
def supersede (alive : Nat → Bool) (capturedPos : Int) (action : String) : SupersedeTrace :=
  { cancelSignalled := true, polls := supersede_wait alive,
    seedPos := capturedPos, seedAction := action }

/-- A status-read result stream reporting a constant 50% open door. -/
def read50 : StatusResult := get_door_status (fun _ => .success (some (mkPosResp 50)))

/-- A status-read result reporting 3% open. -/
def r9 : StatusResult := get_door_status (fun _ => .success (some (mkPosResp 3)))

/-- A response carrying embedded error code 12 (permission denied). -/
def errResp : Response :=
  { payload := some { command := { error_code := some { value := 12, name := "PERMISSION_DENIED" } },
                      command_id := 1 } }

lemma dead_guard_false (resp : Option Response) : dead_elif_guard resp = false := by
  cases resp with
  | none => rfl
  | some r => simp [dead_elif_guard, hasattr_dotted]

lemma check_retval_none (le : Bool) (resp : Option Response) :
    (check_mcp_error le resp).retVal = none := by
  cases le with
  | false => simp [check_mcp_error, dead_guard_false]
  | true => rfl

lemma supersede_wait_go_le (alive : Nat → Bool) (fuel : Nat) :
    ∀ c, supersede_wait_go alive c fuel ≤ c + fuel := by
  induction fuel with
  | zero => intro c; simp [supersede_wait_go]
  | succ n ih =>
    intro c
    simp only [supersede_wait_go]
    split
    · exact le_trans (ih (c + 1)) (by omega)
    · omega

/-- The actions named by the claim about request construction. -/
def doorActions : List String := ["impulse", "up", "down", "partial", "light"]

lemma dispatch_of_mem (a : String) (h : a ∈ doorActions) (st : Option String) (port : Int) :
    do_door_action_model a st port = .call a (MCPSetStateReq.mk port) := by
  fin_cases h <;> rfl

/-- C1: on a successful status read whose response carries `percent_open = p`,
the returned and published position is `p`; the derived state is `closed`
for 0, `open` for 100, and unset strictly in between (state published only
when set, position always); a response without the field yields sentinel
position -1, a warning, and no state publish. -/
theorem c1_status_reader_state_mapping (p : Int) :
    (read_success (some (mkPosResp p))).position = p ∧
    (read_success (some (mkPosResp p))).state =
      (if p = 0 then some "closed" else if p = 100 then some "open" else none) ∧
    (read_success (some (mkPosResp p))).pubPos = p ∧
    (read_success (some (mkPosResp p))).pubState = (read_success (some (mkPosResp p))).state ∧
    (read_success (some (mkPosResp p))).warned = false ∧
    (read_success (some noPosResp)).position = -1 ∧
    (read_success (some noPosResp)).warned = true ∧
    (read_success (some noPosResp)).pubState = none ∧
    (read_success (some noPosResp)).pubPos = -1 :=
  ⟨rfl, rfl, rfl, rfl, rfl, rfl, rfl, rfl, rfl⟩

/-- Witness for C1 at concrete positions 0, 100 and 40. -/
theorem c1_status_reader_state_mapping_witness :
    (read_success (some (mkPosResp 0))).state = some "closed" ∧
    (read_success (some (mkPosResp 100))).state = some "open" ∧
    (read_success (some (mkPosResp 40))).state = none ∧
    (read_success (some (mkPosResp 40))).pubPos = 40 := by
  refine ⟨?_, ?_, ?_, (c1_status_reader_state_mapping 40).2.2.1⟩
  · rw [(c1_status_reader_state_mapping 0).2.1]; decide
  · rw [(c1_status_reader_state_mapping 100).2.1]; decide
  · rw [(c1_status_reader_state_mapping 40).2.1]; decide

/-- C2 (evaluation at the failing input): with action "up", seed position
50 and a gateway that keeps reporting 50% with no error, the tracking loop
performs one confirming read and exits with state "unknown" — it does exit
while the state still differs from `open`, because line 214 compares
`last_action` for equality with the literal "up open". -/
theorem c2_up_loop_exits_while_not_open :
    track_realtime_door_position (fun _ => read50) (fun _ => false) (fun _ => false) "up" 50 10
      = { finalState := some "unknown", iterations := 1, exit := .settled,
          pubs := [(50, "unknown")] } ∧
    (some "unknown" : Option String) ≠ some "open" :=
  ⟨rfl, by decide⟩

/-- C3 counterexample: when the prior tracking thread never exits, the
supersede wait performs 30 polls of 0.5 s (15 seconds), not at most 15. -/
theorem c3_counterexample_thirty_polls :
    (supersede (fun _ => true) 40 "up").polls = 30 ∧
    ¬ (supersede (fun _ => true) 40 "up").polls ≤ 15 :=
  ⟨rfl, by decide⟩

/-- C3 (amended): superseding signals cancellation, waits cooperatively at
most 30 polls of 0.5 s (~15 seconds, a counter stepped by 0.5 against the
bound 15), and starts the new monitor seeded with the captured position
and the action just taken. -/
theorem c3_supersede_bounded_wait (alive : Nat → Bool) (capturedPos : Int) (action : String) :
    (supersede alive capturedPos action).cancelSignalled = true ∧
    (supersede alive capturedPos action).polls ≤ 30 ∧
    (supersede alive capturedPos action).seedPos = capturedPos ∧
    (supersede alive capturedPos action).seedAction = action := by
  refine ⟨rfl, ?_, rfl, rfl⟩
  have h := supersede_wait_go_le alive 30 0
  simpa [supersede, supersede_wait] using h

/-- Witness for the amended C3 with a thread that exits immediately. -/
theorem c3_supersede_bounded_wait_witness :
    (supersede (fun _ => false) 40 "up").polls ≤ 30 ∧
    (supersede (fun _ => false) 40 "up").seedPos = 40 :=
  ⟨(c3_supersede_bounded_wait (fun _ => false) 40 "up").2.1,
   (c3_supersede_bounded_wait (fun _ => false) 40 "up").2.2.1⟩

/-- C4: `stop` with last state `opening` issues the gateway action as
`down`, with `closing` as `up`; any other last state is refused with the
warning message and no gateway request is constructed. -/
theorem c4_stop_contextual (st : Option String) (port : Int) :
    do_door_action_model "stop" (some "opening") port = .call "down" (MCPSetStateReq.mk port) ∧
    do_door_action_model "stop" (some "closing") port = .call "up" (MCPSetStateReq.mk port) ∧
    (st ≠ some "opening" → st ≠ some "closing" →
      do_door_action_model "stop" st port = .refused (stop_warning_msg st) ∧
      requestOf (do_door_action_model "stop" st port) = none) := by
  refine ⟨rfl, rfl, fun h₁ h₂ => ?_⟩
  have hr : do_door_action_model "stop" st port = .refused (stop_warning_msg st) := by
    unfold do_door_action_model
    rw [if_pos rfl, if_neg h₁, if_neg h₂]
  exact ⟨hr, by rw [hr]; rfl⟩

/-- Witness for C4 at last state `None` and port 0. -/
theorem c4_stop_contextual_witness :
    do_door_action_model "stop" (some "opening") 0 = .call "down" (MCPSetStateReq.mk 0) ∧
    do_door_action_model "stop" none 0 = .refused (stop_warning_msg none) ∧
    requestOf (do_door_action_model "stop" none 0) = none := by
  have h := c4_stop_contextual none 0
  exact ⟨h.1, (h.2.2 (by decide) (by decide)).1, (h.2.2 (by decide) (by decide)).2⟩

/-- C5: under persistent protocol-level failures (session error flag set,
no broken pipe), the status reader retries exactly 5 times — not the
configured `MAX_RETRIES = 10` — and returns `(none, -1, none)` with
nothing published; a broken-pipe class fault on the first attempt instead
triggers gateway reinitialization and aborts with `(none, -1, none)`. -/
theorem c5_retry_policy (attempts : Nat → Attempt) :
    MAX_RETRIES = 10 ∧
    ((∀ k, ∃ msg, attempts k = .failure msg true ∧ check_broken_pipe (py_lower msg) = false) →
      get_door_status attempts = exit_status 5 false) ∧
    (∀ msg le, attempts 0 = .failure msg le → check_broken_pipe (py_lower msg) = true →
      get_door_status attempts = exit_status 0 true) := by
  refine ⟨rfl, ?_, ?_⟩
  · intro h
    obtain ⟨m0, a0, c0⟩ := h 0
    obtain ⟨m1, a1, c1⟩ := h 1
    obtain ⟨m2, a2, c2⟩ := h 2
    obtain ⟨m3, a3, c3⟩ := h 3
    obtain ⟨m4, a4, c4⟩ := h 4
    obtain ⟨m5, a5, c5⟩ := h 5
    simp [get_door_status, MAX_RETRIES, get_door_status_go,
      a0, a1, a2, a3, a4, a5, c0, c1, c2, c3, c4, c5]
  · intro msg le h hc
    simp [get_door_status, MAX_RETRIES, get_door_status_go, h, hc]

/-- Witness for C5: a constantly failing session retries 5 times; an
errno-32 failure reinitializes at once. -/
theorem c5_retry_policy_witness :
    get_door_status (fun _ => .failure "timeout" true) = exit_status 5 false ∧
    get_door_status (fun _ => .failure "[errno 32] broken pipe" false) = exit_status 0 true := by
  constructor
  · exact (c5_retry_policy (fun _ => .failure "timeout" true)).2.1
      (fun _ => ⟨"timeout", rfl, by decide⟩)
  · exact (c5_retry_policy (fun _ => .failure "[errno 32] broken pipe" false)).2.2
      "[errno 32] broken pipe" false rfl (by decide)

/-- C6 (evaluation at the failing input): the token "l" is not in the
command vocabulary, yet the substring dispatch of line 80 routes it to the
door-action branch and `do_door_action` submits a gateway set-state
request for it; "p" is likewise routed to the status-read branch; only a
token such as "foo" that is a substring of no branch string reaches the
unrecognised-command response. -/
theorem c6_substring_dispatch_gateway_call :
    commandVocab.contains "l" = false ∧
    do_command_route "l" = .doorAction "l" ∧
    do_door_action_model "l" none 0 = .call "l" (MCPSetStateReq.mk 0) ∧
    commandVocab.contains "p" = false ∧
    do_command_route "p" = .statusRead ∧
    do_command_route "foo" = .unrecognised ("Command \x27foo is not recognised") :=
  ⟨by decide, rfl, rfl, by decide, rfl, rfl⟩

/-- C7 (evaluation at the failing input): the command-format regex
`^[a-zA-Z]+_\d+$` rejects "get_door_state_1" (its action part contains
underscores), so `on_message` logs an invalid-format warning and
dispatches nothing; a single-word command such as "up_0" is dispatched. -/
theorem c7_get_door_state_message_rejected :
    cmdFormatMatch "get_door_state_1" = false ∧
    on_message_route "get_door_state_1" = .invalidFormat ∧
    cmdFormatMatch "up_0" = true ∧
    on_message_route "up_0" = .dispatched "up" "0" :=
  ⟨by decide, rfl, by decide, rfl⟩

/-- C8 (evaluation at the failing input): `errResp` carries embedded error
code 12, but with the session error flag unset `check_mcp_error` publishes
the empty success marker (the normalizing `elif` is dead because its
`hasattr` guards test dotted attribute names); the `{code, name}` record
is published only when the session flag is set. -/
theorem c8_embedded_error_empty_marker :
    error_obj_of (some errResp) = { error_code := .num 12, error := "PERMISSION_DENIED" } ∧
    check_mcp_error false (some errResp) = { publishedToErrorTopic := none, retVal := none } ∧
    check_mcp_error true (some errResp) =
      { publishedToErrorTopic := some { error_code := .num 12, error := "PERMISSION_DENIED" },
        retVal := none } :=
  ⟨rfl, rfl, rfl⟩

/-- C9: in a tracking-loop iteration whose status read returned a response
and where the classifier reports no error (it never does — its return
value is always `None`), the new state is derived from the position
comparison (decreased → closing, increased → opening, equal at 100 → open,
equal at 0 → closed, otherwise unknown), the shared state is updated to it
and the (position, state) pair is published; a read with no response exits
on the error path. -/
theorem c9_monitor_step (lastErr : Bool) (prev cur : Int) (r : StatusResult) :
    (cur < prev → derive_state cur prev = "closing") ∧
    (cur > prev → derive_state cur prev = "opening") ∧
    (cur = prev → cur = 100 → derive_state cur prev = "open") ∧
    (cur = prev → cur = 0 → derive_state cur prev = "closed") ∧
    (cur = prev → cur ≠ 100 → cur ≠ 0 → derive_state cur prev = "unknown") ∧
    (∀ resp, r.resp = some resp →
      (check_mcp_error lastErr (some resp)).retVal = none ∧
      track_step lastErr prev r = .updated r.position (derive_state r.position prev)) ∧
    (r.resp = none → track_step lastErr prev r = .exitErr r.state) := by
  refine ⟨?_, ?_, ?_, ?_, ?_, ?_, ?_⟩
  · intro h; simp [derive_state, h]
  · intro h
    have h1 : ¬ cur < prev := by omega
    simp [derive_state, h1, h]
  · intro he h100
    subst he
    simp [derive_state, h100]
  · intro he h0
    subst he
    simp [derive_state, h0]
  · intro he h100 h0
    subst he
    simp [derive_state, h100, h0]
  · intro resp hr
    refine ⟨check_retval_none lastErr (some resp), ?_⟩
    simp [track_step, hr, check_retval_none]
  · intro hr
    simp [track_step, hr]

/-- Witness for C9 at a decreasing position (5 → 3). -/
theorem c9_monitor_step_witness :
    derive_state 3 5 = "closing" ∧
    track_step false 5 r9 = .updated 3 (derive_state 3 5) := by
  have h := c9_monitor_step false 5 3 r9
  refine ⟨h.1 (by decide), ?_⟩
  exact (h.2.2.2.2.2.1 (mkPosResp 3) rfl).2

/-- C10: for every pair of actions in `{impulse, up, down, partial, light}`
(and a contextually translated `stop`), `do_door_action` submits the
identical set-state request: it depends only on the door's port. -/
theorem c10_request_depends_only_on_port (a₁ a₂ : String) (st₁ st₂ : Option String)
    (port : Int) (h₁ : a₁ ∈ doorActions) (h₂ : a₂ ∈ doorActions) :
    requestOf (do_door_action_model a₁ st₁ port) = some (MCPSetStateReq.mk port) ∧
    requestOf (do_door_action_model a₂ st₂ port) = requestOf (do_door_action_model a₁ st₁ port) ∧
    requestOf (do_door_action_model "stop" (some "opening") port) =
      requestOf (do_door_action_model a₁ st₁ port) ∧
    requestOf (do_door_action_model "stop" (some "closing") port) =
      requestOf (do_door_action_model a₁ st₁ port) := by
  rw [dispatch_of_mem a₁ h₁ st₁ port, dispatch_of_mem a₂ h₂ st₂ port]
  exact ⟨rfl, rfl, rfl, rfl⟩

/-- Witness for C10 with `impulse` and `light` on port 0. -/
theorem c10_request_depends_only_on_port_witness :
    requestOf (do_door_action_model "impulse" none 0) = some (MCPSetStateReq.mk 0) ∧
    requestOf (do_door_action_model "light" (some "open") 0) =
      requestOf (do_door_action_model "impulse" none 0) := by
  have h := c10_request_depends_only_on_port "impulse" "light" none (some "open") 0
    (by decide) (by decide)
  exact ⟨h.1, h.2.1⟩

end B2M
